import Mathlib

/-
Shallow embedding of src/loor_funding.py.

The program drives a browser against a remote page.  The page and the
browser responses are modelled by an environment record Env: which
elements the page offers is environment data, while the control flow of
each Python method is translated faithfully.  Clicks and dry-run log
lines are recorded as an explicit event trace.  Python exceptions are
modelled by an Except result; the two exception classes that the code
distinguishes (playwright TimeoutError, which the per-amount handler in
fund_show catches, and ValueError, which it does not) are the two
constructors of Err.  Fixed waits for the page load state
(wait_for_load_state) are modelled as succeeding; element lookups, whose
presence the claims are about, are environment-controlled.
-/

deriving instance DecidableEq for Except

namespace LoorFunding

/-- Exception model: timeout mirrors PlaywrightTimeoutError, valueError
mirrors ValueError.  The per-amount handler in fund_show catches only
timeout, as in the source (except PlaywrightTimeoutError). -/
inductive Err where
  | timeout (msg : String)
  | valueError (msg : String)
deriving DecidableEq, Repr

/-- Observable actions: the two state-changing clicks of fund_show
(funding button, confirmation button), the claim click of claim_loot,
and the DRYRUN log line that fund_show emits instead of clicking. -/
inductive Event where
  | fundClick (slug : String) (amount : Nat)
  | confirmClick (slug : String) (amount : Nat)
  | claimClick
  | dryrunLog (slug : String) (amount : Nat)
deriving DecidableEq, Repr

/-- An event is a commit action when it is a state-changing click. -/
def Event.isCommit : Event → Bool
  | .fundClick _ _ => true
  | .confirmClick _ _ => true
  | .claimClick => true
  | .dryrunLog _ _ => false

/-- The remote page as the browser observes it during one run. -/
structure Env where
  /-- login: the post-login marker element appears within the timeout. -/
  loginOk : Bool
  /-- get_loot_balance: stripped text contents of the elements matched by
  the ordered balance selectors, in encounter order. -/
  balanceTexts : List String
  /-- get_show_id: the project page of this slug shows funding buttons. -/
  showAvailable : String → Bool
  /-- fund_show: the funding button for this slug and amount appears
  within the timeout (wait_for_selector on the button selector). -/
  buttonFor : String → Nat → Bool
  /-- fund_show: this confirm selector yields a visible button within its
  2000 ms wait. -/
  confirmSelectorHit : String → Bool
  /-- claim_loot: the text "Already claimed" appears on the quests page. -/
  alreadyClaimed : Bool
  /-- claim_loot: a form with a Claim button is present. -/
  claimFormPresent : Bool

/-- One entry of the config key media: name, type and amounts. -/
structure MediaItem where
  name : String
  mtype : String
  amounts : List Nat
deriving DecidableEq, Repr

/-- The loaded config.yml: the ordered list under key media. -/
structure Config where
  media : List MediaItem
deriving DecidableEq, Repr

/-- get_show_id, slug computation: show_name.lower().replace(" ", "-").
The replace has a single-character pattern, so it is the character map
that lowercases and then turns each space into a hyphen. -/
def show_slug (show_name : String) : String :=
  String.mk (show_name.data.map (fun c =>
    if Char.toLower c = ' ' then '-' else Char.toLower c))

/-- get_show_id: navigate to the project page of the slug and look for
funding buttons; raise ValueError when none are found. -/
def get_show_id (env : Env) (show_name : String) : Except Err String :=
  let slug := show_slug show_name
  if env.showAvailable slug then Except.ok slug
  else Except.error (Err.valueError "Show not found or not available for funding")

/-- fund_show: valid_amounts = [100, 400, 800]. -/
def valid_amounts : List Nat := [100, 400, 800]

/-- get_loot_balance, selector scan: the first element text that
contains a digit becomes the balance text.  The strip() of the source
only removes surrounding whitespace, which neither the digit test nor
the digit-filtering parse observes, so it is omitted here. -/
def findBalanceText (texts : List String) : Option String :=
  texts.find? (fun t => t.data.any Char.isDigit)

/-- get_loot_balance, parsing: int of the concatenation of the digit
characters of the text, every non-digit character stripped. -/
def parseBalance (text : String) : Nat :=
  (text.data.filter Char.isDigit).foldl (fun n c => 10 * n + (c.toNat - 48)) 0

/-- get_loot_balance: scan the balance selectors for a text with a digit;
parse it, or raise ValueError when no such element exists. -/
def get_loot_balance (env : Env) : Except Err Nat :=
  match findBalanceText env.balanceTexts with
  | some t => Except.ok (parseBalance t)
  | none => Except.error (Err.valueError "Could not find LOOT balance in header")

/-- fund_show: the ordered confirm-button selector fallbacks. -/
def confirm_selectors : List String :=
  ["button:has-text(\"Confirm\")",
   "button:has-text(\"Yes\")",
   "button[type=\"submit\"]",
   "button:has-text(\"Fund\")"]

/-- fund_show, confirm scan: first selector of the fallback list that
yields a visible button; timeouts of individual selectors are skipped. -/
def findConfirmButton (env : Env) : Option String :=
  confirm_selectors.find? env.confirmSelectorHit

/-- One iteration of the per-amount loop of fund_show, after the page
reload: wait for the funding button (timeout raises the caught
PlaywrightTimeoutError); in dry-run log and succeed without clicking;
otherwise click, search the confirm selectors, click confirm (a missing
confirm button raises ValueError), then re-read the balance with
get_loot_balance (whose failure raises ValueError). -/
def attemptAmount (env : Env) (dryrun : Bool) (slug : String) (amount : Nat) :
    List Event × Except Err Unit :=
  if env.buttonFor slug amount then
    if dryrun then
      ([Event.dryrunLog slug amount], Except.ok ())
    else
      match findConfirmButton env with
      | some _ =>
          match get_loot_balance env with
          | Except.ok _ =>
              ([Event.fundClick slug amount, Event.confirmClick slug amount],
               Except.ok ())
          | Except.error e =>
              ([Event.fundClick slug amount, Event.confirmClick slug amount],
               Except.error e)
      | none =>
          ([Event.fundClick slug amount],
           Except.error (Err.valueError "Could not find confirmation button"))
  else
    ([], Except.error (Err.timeout "Timeout waiting for funding button"))

/-- The per-amount loop of fund_show with its success_count accumulator:
a timeout is logged and skipped (except PlaywrightTimeoutError), any
other exception propagates and ends the loop. -/
def fundLoop (env : Env) (dryrun : Bool) (slug : String) :
    List Nat → Nat → List Event × Except Err Nat
  | [], success_count => ([], Except.ok success_count)
  | amount :: rest, success_count =>
    match attemptAmount env dryrun slug amount with
    | (evs, Except.ok _) =>
        let r := fundLoop env dryrun slug rest (success_count + 1)
        (evs ++ r.1, r.2)
    | (evs, Except.error (Err.timeout _)) =>
        let r := fundLoop env dryrun slug rest success_count
        (evs ++ r.1, r.2)
    | (evs, Except.error (Err.valueError m)) =>
        (evs, Except.error (Err.valueError m))

/-- fund_show up to its success count: resolve the show id, raise when
the returned id is falsy (the slug is the empty string, which happens
exactly for the empty show name, even when the page shows funding
buttons), reject the batch when any amount is outside valid_amounts,
then run the per-amount loop from success_count = 0. -/
def fund_show_core (env : Env) (dryrun : Bool) (show_name : String)
    (amounts : List Nat) : List Event × Except Err Nat :=
  match get_show_id env show_name with
  | Except.error e => ([], Except.error e)
  | Except.ok show_id =>
    if show_id = "" then
      ([], Except.error (Err.valueError "Could not find show ID"))
    else
      let invalid_amounts := amounts.filter (fun a => ! valid_amounts.contains a)
      if invalid_amounts.isEmpty then
        fundLoop env dryrun show_id amounts 0
      else
        ([], Except.error (Err.valueError "Invalid funding amounts"))

/-- fund_show: returns success_count > 0 (the outer handler only logs
and re-raises, so errors propagate unchanged). -/
def fund_show (env : Env) (dryrun : Bool) (show_name : String)
    (amounts : List Nat) : List Event × Except Err Bool :=
  let r := fund_show_core env dryrun show_name amounts
  (r.1, r.2.map (fun success_count => decide (0 < success_count)))

/-- validate_funding_amounts, total: sum of the amounts of every media
item of the config. -/
def total_needed (cfg : Config) : Nat :=
  cfg.media.foldl (fun acc item => acc + item.amounts.sum) 0

/-- validate_funding_amounts: read the balance (its ValueError
propagates), raise ValueError when it is below the total, otherwise
return True.  The dryrun flag only changes the log line. -/
def validate_funding_amounts (env : Env) (cfg : Config) : Except Err Bool :=
  match get_loot_balance env with
  | Except.error e => Except.error e
  | Except.ok current_balance =>
    if current_balance < total_needed cfg then
      Except.error (Err.valueError "Insufficient LOOT balance")
    else
      Except.ok true

/-- The per-target loop of fund_all_shows: every exception of fund_show
is caught, logged and the loop continues with the next item, so each
item yields an entry regardless of the outcome of the previous ones. -/
def fundAllLoop (env : Env) (dryrun : Bool) :
    List MediaItem → List (String × (List Event × Except Err Bool))
  | [] => []
  | item :: rest =>
      (item.name, fund_show env dryrun item.name item.amounts)
        :: fundAllLoop env dryrun rest

/-- fund_all_shows: validate first (its exception propagates, funding no
target), return False early when validation returns falsy, otherwise run
the per-target loop and fall through (returning None). -/
def fund_all_shows (env : Env) (cfg : Config) (dryrun : Bool) :
    List (String × (List Event × Except Err Bool)) × Except Err (Option Bool) :=
  match validate_funding_amounts env cfg with
  | Except.error e => ([], Except.error e)
  | Except.ok ok =>
    if ok then (fundAllLoop env dryrun cfg.media, Except.ok none)
    else ([], Except.ok (some false))

/-- login: submit credentials and poll for a post-login marker; raise
ValueError when verification fails. -/
def login (env : Env) : Except Err Unit :=
  if env.loginOk then Except.ok ()
  else Except.error (Err.valueError "Login failed - could not verify successful login")

/-- claim_loot: log in first when the session has no page yet; on the
quests page, return at once when the Already claimed marker is present;
otherwise click the claim button of the claim form when one exists (then
re-read the balance, whose failure propagates), else do nothing. -/
def claim_loot (env : Env) (loggedIn : Bool) : List Event × Except Err Unit :=
  match (if loggedIn then Except.ok () else login env) with
  | Except.error e => ([], Except.error e)
  | Except.ok _ =>
    if env.alreadyClaimed then
      ([], Except.ok ())
    else if env.claimFormPresent then
      match get_loot_balance env with
      | Except.ok _ => ([Event.claimClick], Except.ok ())
      | Except.error e => ([Event.claimClick], Except.error e)
    else
      ([], Except.ok ())

/-- The CLI flags of main. -/
structure Args where
  debug : Bool
  dryrun : Bool
  claimOnly : Bool

/-- main after constructing the driver: claim_loot runs first in its own
try block whose exception is only logged; then, unless claim-only, the
funding pass runs (its exception is caught by the outer handler after
the events up to it have happened).  Result: the claim-step events and
the per-target funding results. -/
def main_run (env : Env) (cfg : Config) (args : Args) :
    List Event × List (String × (List Event × Except Err Bool)) :=
  let claimRes := claim_loot env false
  if args.claimOnly then
    (claimRes.1, [])
  else
    (claimRes.1, (fund_all_shows env cfg args.dryrun).1)

/-! Concrete environments and configurations used to instantiate the
theorems below on closed inputs. -/

/-- A fully healthy page: login works, the balance reads 850, every show
page and every funding and confirm button is present, nothing claimed. -/
def envBase : Env where
  loginOk := true
  balanceTexts := ["850"]
  showAvailable := fun _ => true
  buttonFor := fun _ _ => true
  confirmSelectorHit := fun _ => true
  alreadyClaimed := false
  claimFormPresent := false

/-- Healthy page except that no funding button ever appears, so every
button wait times out. -/
def envNoButton : Env := { envBase with buttonFor := fun _ _ => false }

/-- Healthy page except that no confirm selector yields a button. -/
def envNoConfirm : Env := { envBase with confirmSelectorHit := fun _ => false }

/-- Healthy page except that login verification fails. -/
def envNoLogin : Env := { envBase with loginOk := false }

/-- Healthy page except that no element text contains a digit, so the
balance cannot be read. -/
def envNoBalance : Env := { envBase with balanceTexts := ["LOOT"] }

/-- Healthy page whose balance element reads "1,234 LOOT". -/
def envBalance1234 : Env := { envBase with balanceTexts := ["1,234 LOOT"] }

/-- Healthy page where the daily LOOT was already claimed. -/
def envClaimed : Env := { envBase with alreadyClaimed := true }

/-- Healthy page where only the show with slug good-show is available. -/
def envOnlyGood : Env := { envBase with showAvailable := fun s => s == "good-show" }

/-- Config with a single show funded with 100. -/
def cfgOne : Config := { media := [{ name := "Test Show", mtype := "show", amounts := [100] }] }

/-- Config asking for 400 + 800 = 1200 LOOT for a single show. -/
def cfgBig : Config := { media := [{ name := "Test Show", mtype := "show", amounts := [400, 800] }] }

/-- Config with two shows; against envOnlyGood the first is unavailable
and fails while the second is fundable. -/
def cfgTwo : Config :=
  { media := [{ name := "Bad Show", mtype := "show", amounts := [100] },
              { name := "Good Show", mtype := "show", amounts := [100] }] }

/-- CLI flags of a dry run that also funds (no claim-only). -/
def argsDry : Args := { debug := false, dryrun := true, claimOnly := false }

/-! Helper lemmas about the per-amount and per-target loops. -/

/-- In dry-run the per-amount step either logs or times out; it never
clicks. -/
theorem attemptAmount_dryrun (env : Env) (slug : String) (amount : Nat) :
    attemptAmount env true slug amount =
      if env.buttonFor slug amount then
        ([Event.dryrunLog slug amount], Except.ok ())
      else
        ([], Except.error (Err.timeout "Timeout waiting for funding button")) := by
  simp [attemptAmount]

/-- In dry-run no event of the per-amount loop is a commit click. -/
theorem fundLoop_dryrun_no_commit (env : Env) (slug : String) :
    ∀ (amounts : List Nat) (cnt : Nat) (ev : Event),
      ev ∈ (fundLoop env true slug amounts cnt).1 → ev.isCommit = false := by
  intro amounts
  induction amounts with
  | nil => intro cnt ev h; simp [fundLoop] at h
  | cons a rest ih =>
    intro cnt ev h
    by_cases hb : env.buttonFor slug a
    · simp [fundLoop, attemptAmount, hb] at h
      rcases h with h | h
      · subst h; rfl
      · exact ih _ _ h
    · simp [fundLoop, attemptAmount, hb] at h
      exact ih _ _ h

/-- In dry-run, when every funding button is present, the loop logs one
DRYRUN line per amount and counts every amount as a success. -/
theorem fundLoop_dryrun_all (env : Env) (slug : String) :
    ∀ (amounts : List Nat) (cnt : Nat),
      (∀ a ∈ amounts, env.buttonFor slug a = true) →
      fundLoop env true slug amounts cnt =
        (amounts.map (Event.dryrunLog slug), Except.ok (cnt + amounts.length)) := by
  intro amounts
  induction amounts with
  | nil => intro cnt _; simp [fundLoop]
  | cons a rest ih =>
    intro cnt h
    have hb : env.buttonFor slug a = true := h a (by simp)
    have hr := ih (cnt + 1) (fun x hx => h x (by simp [hx]))
    simp [fundLoop, attemptAmount, hb, hr]
    omega

/-- When no funding button is ever found, every amount times out and is
skipped: the loop produces no event and leaves the count unchanged. -/
theorem fundLoop_all_timeout (env : Env) (dryrun : Bool) (slug : String) :
    ∀ (amounts : List Nat) (cnt : Nat),
      (∀ a ∈ amounts, env.buttonFor slug a = false) →
      fundLoop env dryrun slug amounts cnt = ([], Except.ok cnt) := by
  intro amounts
  induction amounts with
  | nil => intro cnt _; simp [fundLoop]
  | cons a rest ih =>
    intro cnt h
    have hb : env.buttonFor slug a = false := h a (by simp)
    have hr := ih cnt (fun x hx => h x (by simp [hx]))
    simp [fundLoop, attemptAmount, hb, hr]

/-- The per-target loop yields one entry per config item, in order,
whatever each fund_show call returns. -/
theorem fundAllLoop_names (env : Env) (dryrun : Bool) :
    ∀ (items : List MediaItem),
      (fundAllLoop env dryrun items).map Prod.fst = items.map MediaItem.name := by
  intro items
  induction items with
  | nil => simp [fundAllLoop]
  | cons item rest ih => simp [fundAllLoop, ih]

/-- The slug is falsy (empty) exactly for the empty show name: the slug
computation maps the characters of the name one to one. -/
theorem show_slug_empty_iff (s : String) : show_slug s = "" ↔ s = "" := by
  cases s with
  | mk data =>
    constructor
    · intro h
      have hd : data.map (fun c =>
          if Char.toLower c = ' ' then '-' else Char.toLower c) = [] :=
        congrArg String.data h
      have hnil : data = [] := List.map_eq_nil_iff.mp hd
      rw [hnil]
    · intro h
      rw [h]
      rfl

/-! The claims. -/

/-- C1: for every configuration and balance, when the sum of all
requested amounts across the configured targets exceeds the readable
current balance, validate_funding_amounts raises, and fund_all_shows
then produces no per-target funding entry at all and propagates the
error. -/
theorem C1_insufficient_balance_refuses (env : Env) (cfg : Config) (dryrun : Bool)
    (b : Nat) (hb : get_loot_balance env = Except.ok b)
    (hlt : b < total_needed cfg) :
    validate_funding_amounts env cfg =
      Except.error (Err.valueError "Insufficient LOOT balance")
    ∧ (fund_all_shows env cfg dryrun).1 = []
    ∧ (fund_all_shows env cfg dryrun).2 =
        Except.error (Err.valueError "Insufficient LOOT balance") := by
  have hv : validate_funding_amounts env cfg =
      Except.error (Err.valueError "Insufficient LOOT balance") := by
    simp [validate_funding_amounts, hb, hlt]
  exact ⟨hv, by simp [fund_all_shows, hv], by simp [fund_all_shows, hv]⟩

/-- C1 witness: with balance text "850" and a config requesting
400 + 800 = 1200, validation raises and no target is funded. -/
theorem C1_insufficient_balance_refuses_witness :
    get_loot_balance envBase = Except.ok 850
    ∧ 850 < total_needed cfgBig
    ∧ (validate_funding_amounts envBase cfgBig =
        Except.error (Err.valueError "Insufficient LOOT balance")
      ∧ (fund_all_shows envBase cfgBig false).1 = []
      ∧ (fund_all_shows envBase cfgBig false).2 =
          Except.error (Err.valueError "Insufficient LOOT balance")) :=
  ⟨by decide, by decide,
   C1_insufficient_balance_refuses envBase cfgBig false 850 (by decide) (by decide)⟩

/-- C2 counterexample: in dry-run, on a page where the show is available
but the funding button for 100 never appears, fund_show reports overall
failure and a success count of 0, not success for every valid amount of
the list [100]; and for the empty show name, whose slug is falsy, the
healthy page makes fund_show raise instead of reporting success. -/
theorem C2_counterexample_button_timeout :
    ((fund_show envNoButton true "Test Show" [100]).2 = Except.ok false
     ∧ (fund_show_core envNoButton true "Test Show" [100]).2 = Except.ok 0
     ∧ (fund_show_core envNoButton true "Test Show" [100]).2 ≠ Except.ok 1)
    ∧ fund_show envBase true "" [100] =
        ([], Except.error (Err.valueError "Could not find show ID")) := by
  refine ⟨⟨by decide, by decide, by decide⟩, by decide⟩

/-- C2 amended: in dry-run fund_show never performs a commit click, for
any page; and for a nonempty show name, when the show page is available
and the funding button of every requested valid amount is found, it only
logs one DRYRUN line per amount and counts every amount of the list as a
success. -/
theorem C2_dryrun_logs_only (env : Env) (show_name : String) (amounts : List Nat) :
    (∀ ev ∈ (fund_show env true show_name amounts).1, ev.isCommit = false)
    ∧ (show_name ≠ "" →
       env.showAvailable (show_slug show_name) = true →
       (∀ a ∈ amounts, a ∈ valid_amounts) →
       (∀ a ∈ amounts, env.buttonFor (show_slug show_name) a = true) →
       fund_show_core env true show_name amounts =
         (amounts.map (Event.dryrunLog (show_slug show_name)),
          Except.ok amounts.length)
       ∧ (fund_show env true show_name amounts).2 =
           Except.ok (decide (0 < amounts.length))) := by
  constructor
  · intro ev hev
    unfold fund_show fund_show_core at hev
    cases hsid : get_show_id env show_name with
    | error e => rw [hsid] at hev; simp at hev
    | ok slug =>
      rw [hsid] at hev
      by_cases hempty : slug = ""
      · simp [hempty] at hev
      · by_cases hinv : (amounts.filter (fun a => ! valid_amounts.contains a)).isEmpty = true
        · simp only [if_neg hempty, if_pos hinv] at hev
          exact fundLoop_dryrun_no_commit env slug amounts 0 ev hev
        · simp only [if_neg hempty, if_neg hinv] at hev
          simp at hev
  · intro hns hav hval hbtn
    have hsid : get_show_id env show_name = Except.ok (show_slug show_name) := by
      simp [get_show_id, hav]
    have hse : ¬ (show_slug show_name = "") :=
      fun h => hns ((show_slug_empty_iff show_name).mp h)
    have hinv : (amounts.filter (fun a => ! valid_amounts.contains a)) = [] := by
      apply List.filter_eq_nil_iff.mpr
      intro a ha
      simpa using hval a ha
    have hloop := fundLoop_dryrun_all env (show_slug show_name) amounts 0 hbtn
    have hcore : fund_show_core env true show_name amounts =
        (amounts.map (Event.dryrunLog (show_slug show_name)),
         Except.ok amounts.length) := by
      simp [fund_show_core, hsid, hse, hinv, hloop]
      exact hval
    refine ⟨hcore, ?_⟩
    simp [fund_show, hcore, Except.map]

/-- C2 amended witness: in dry-run on the healthy page, both amounts of
[100, 400] are logged and counted as successes and no commit click
occurs. -/
theorem C2_dryrun_logs_only_witness :
    (∀ ev ∈ (fund_show envBase true "Test Show" [100, 400]).1, ev.isCommit = false)
    ∧ (fund_show_core envBase true "Test Show" [100, 400] =
        ([Event.dryrunLog "test-show" 100, Event.dryrunLog "test-show" 400],
         Except.ok 2)
      ∧ (fund_show envBase true "Test Show" [100, 400]).2 = Except.ok true) :=
  ⟨(C2_dryrun_logs_only envBase "Test Show" [100, 400]).1,
   (C2_dryrun_logs_only envBase "Test Show" [100, 400]).2
     (by decide) (by decide) (by decide) (by decide)⟩

/-- C3: whenever the requested list contains an amount outside
valid_amounts = [100, 400, 800], fund_show raises before its per-amount
loop: no event is produced for any amount of the batch and the result is
an error. -/
theorem C3_invalid_amount_rejects_batch (env : Env) (dryrun : Bool)
    (show_name : String) (amounts : List Nat)
    (h : ∃ a ∈ amounts, a ∉ valid_amounts) :
    (fund_show env dryrun show_name amounts).1 = []
    ∧ ∃ e, (fund_show env dryrun show_name amounts).2 = Except.error e := by
  cases hsid : get_show_id env show_name with
  | error e =>
    refine ⟨?_, e, ?_⟩ <;> simp [fund_show, fund_show_core, hsid, Except.map]
  | ok slug =>
    by_cases hempty : slug = ""
    · refine ⟨?_, Err.valueError "Could not find show ID", ?_⟩ <;>
        simp [fund_show, fund_show_core, hsid, hempty, Except.map]
    · obtain ⟨a, ha, hna⟩ := h
      have hcond : ¬ (∀ x ∈ amounts, x ∈ valid_amounts) := fun hc => hna (hc a ha)
      refine ⟨?_, Err.valueError "Invalid funding amounts", ?_⟩ <;>
        simp [fund_show, fund_show_core, hsid, hempty, hcond, Except.map]

/-- C3 witness: the batch [100, 50] contains the invalid amount 50, so
on the healthy page fund_show produces no event and errors out. -/
theorem C3_invalid_amount_rejects_batch_witness :
    (fund_show envBase false "Test Show" [100, 50]).1 = []
    ∧ ∃ e, (fund_show envBase false "Test Show" [100, 50]).2 = Except.error e :=
  C3_invalid_amount_rejects_batch envBase false "Test Show" [100, 50]
    ⟨50, by decide, by decide⟩

/-- C4: whenever the selector scan of get_loot_balance finds an element
text, the returned balance is that text with every non-digit character
stripped, read as an integer; on "1,234 LOOT" this gives 1234 and on
"850" it gives 850. -/
theorem C4_balance_parses_digits :
    (∀ (env : Env) (t : String), findBalanceText env.balanceTexts = some t →
       get_loot_balance env = Except.ok (parseBalance t))
    ∧ parseBalance "1,234 LOOT" = 1234
    ∧ parseBalance "850" = 850
    ∧ get_loot_balance envBalance1234 = Except.ok 1234
    ∧ get_loot_balance envBase = Except.ok 850 := by
  refine ⟨?_, by decide, by decide, by decide, by decide⟩
  intro env t h
  simp [get_loot_balance, h]

/-- C4 witness: on the page whose balance element reads "1,234 LOOT"
the scan finds that text and the parsed balance is returned. -/
theorem C4_balance_parses_digits_witness :
    findBalanceText envBalance1234.balanceTexts = some "1,234 LOOT"
    ∧ get_loot_balance envBalance1234 = Except.ok (parseBalance "1,234 LOOT") :=
  ⟨by decide,
   C4_balance_parses_digits.1 envBalance1234 "1,234 LOOT" (by decide)⟩

/-- C5: a claim_loot call in a logged-in session that observes the
Already claimed marker on the quests page performs no claim click and
returns without error. -/
theorem C5_claim_loot_idempotent (env : Env) (h : env.alreadyClaimed = true) :
    claim_loot env true = ([], Except.ok ()) := by
  simp [claim_loot, h]

/-- C5 witness: on the page where the daily LOOT was already claimed,
the second call of the session is a no-op without error. -/
theorem C5_claim_loot_idempotent_witness :
    envClaimed.alreadyClaimed = true
    ∧ claim_loot envClaimed true = ([], Except.ok ()) :=
  ⟨by decide, C5_claim_loot_idempotent envClaimed (by decide)⟩

/-- C6: once validation passes, fund_all_shows yields one per-target
entry per configured item, in configuration order, whatever each
fund_show call returns: a per-target failure never prevents the
subsequent targets from being attempted. -/
theorem C6_per_target_failure_not_fatal (env : Env) (cfg : Config) (dryrun : Bool)
    (h : validate_funding_amounts env cfg = Except.ok true) :
    (fund_all_shows env cfg dryrun).1.map Prod.fst = cfg.media.map MediaItem.name := by
  simp [fund_all_shows, h, fundAllLoop_names]

/-- C6 witness: against the page where only good-show exists, the first
target Bad Show fails with an error, yet both configured targets are
attempted in order. -/
theorem C6_per_target_failure_not_fatal_witness :
    validate_funding_amounts envOnlyGood cfgTwo = Except.ok true
    ∧ (fund_all_shows envOnlyGood cfgTwo false).1.map Prod.fst = ["Bad Show", "Good Show"]
    ∧ (fund_show envOnlyGood false "Bad Show" [100]).2 =
        Except.error (Err.valueError "Show not found or not available for funding") :=
  ⟨by decide,
   C6_per_target_failure_not_fatal envOnlyGood cfgTwo false (by decide),
   by decide⟩

/-- C7 counterexample: with the funding button present but no confirm
selector yielding a button, fund_show over [100, 400] clicks the 100
button, then the missing confirmation button raises a ValueError that
the per-amount handler (which catches only the timeout class) does not
catch: the batch aborts with an error and 400 is never attempted. -/
theorem C7_counterexample_confirm_missing_fatal :
    fund_show_core envNoConfirm false "Test Show" [100, 400] =
      ([Event.fundClick "test-show" 100],
       Except.error (Err.valueError "Could not find confirmation button"))
    ∧ (fund_show envNoConfirm false "Test Show" [100, 400]).2 =
        Except.error (Err.valueError "Could not find confirmation button") := by
  refine ⟨by decide, by decide⟩

/-- C7 amended: within the per-amount loop of fund_show, a timeout
waiting for the funding button is logged and skipped and the loop
continues with the remaining amounts unchanged; but when the funding
button is found and no confirmation button is, a ValueError is raised
that ends the batch at that amount. -/
theorem C7_timeout_skipped_confirm_fatal (env : Env) (slug : String)
    (a : Nat) (rest : List Nat) (cnt : Nat) :
    (env.buttonFor slug a = false →
       fundLoop env false slug (a :: rest) cnt = fundLoop env false slug rest cnt)
    ∧ (env.buttonFor slug a = true → findConfirmButton env = none →
       fundLoop env false slug (a :: rest) cnt =
         ([Event.fundClick slug a],
          Except.error (Err.valueError "Could not find confirmation button"))) := by
  constructor
  · intro hb
    simp [fundLoop, attemptAmount, hb]
  · intro hb hc
    simp [fundLoop, attemptAmount, hb, hc]

/-- C7 amended witness: with no funding button the loop over [100, 400]
skips 100 and continues with [400]; with buttons but no confirm button
it aborts at 100 with the ValueError. -/
theorem C7_timeout_skipped_confirm_fatal_witness :
    (fundLoop envNoButton false "test-show" [100, 400] 0 =
       fundLoop envNoButton false "test-show" [400] 0)
    ∧ (fundLoop envNoConfirm false "test-show" [100, 400] 0 =
       ([Event.fundClick "test-show" 100],
        Except.error (Err.valueError "Could not find confirmation button"))) :=
  ⟨(C7_timeout_skipped_confirm_fatal envNoButton "test-show" 100 [400] 0).1 (by decide),
   (C7_timeout_skipped_confirm_fatal envNoConfirm "test-show" 100 [400] 0).2
     (by decide) (by decide)⟩

/-- C8 counterexample: on a page where login verification fails but the
balance element still reads 850, the orchestration of main logs the
claim-step failure and continues: the funding pass runs and attempts the
configured target, so an authentication error does not abort the run. -/
theorem C8_counterexample_auth_error_continues :
    login envNoLogin =
      Except.error (Err.valueError "Login failed - could not verify successful login")
    ∧ (claim_loot envNoLogin false).2 =
        Except.error (Err.valueError "Login failed - could not verify successful login")
    ∧ (main_run envNoLogin cfgOne argsDry).2.map Prod.fst = ["Test Show"] := by
  refine ⟨by decide, by decide, by decide⟩

/-- C8 amended: a balance-read failure makes validation raise, so the
funding pass funds no target; an authentication error in the claim step
is only logged and main always continues to the funding pass; and past
validation every per-target error is logged and the loop attempts all
targets in order. -/
theorem C8_balance_abort_auth_continue :
    (∀ (env : Env) (cfg : Config) (dryrun : Bool),
       findBalanceText env.balanceTexts = none →
       (fund_all_shows env cfg dryrun).1 = []
       ∧ (fund_all_shows env cfg dryrun).2 =
           Except.error (Err.valueError "Could not find LOOT balance in header"))
    ∧ (∀ (env : Env) (cfg : Config) (args : Args),
       args.claimOnly = false →
       (main_run env cfg args).2 = (fund_all_shows env cfg args.dryrun).1)
    ∧ (∀ (env : Env) (cfg : Config) (dryrun : Bool),
       validate_funding_amounts env cfg = Except.ok true →
       (fund_all_shows env cfg dryrun).1.map Prod.fst = cfg.media.map MediaItem.name) := by
  refine ⟨?_, ?_, ?_⟩
  · intro env cfg dryrun h
    have hv : validate_funding_amounts env cfg =
        Except.error (Err.valueError "Could not find LOOT balance in header") := by
      simp [validate_funding_amounts, get_loot_balance, h]
    exact ⟨by simp [fund_all_shows, hv], by simp [fund_all_shows, hv]⟩
  · intro env cfg args h
    simp [main_run, h]
  · intro env cfg dryrun h
    simp [fund_all_shows, h, fundAllLoop_names]

/-- C8 amended witness: with an unreadable balance no target is funded
and the error propagates; with login failing main still reaches the
funding pass; and on the partially available page both targets are
attempted. -/
theorem C8_balance_abort_auth_continue_witness :
    ((fund_all_shows envNoBalance cfgOne false).1 = []
     ∧ (fund_all_shows envNoBalance cfgOne false).2 =
         Except.error (Err.valueError "Could not find LOOT balance in header"))
    ∧ (main_run envNoLogin cfgOne argsDry).2 = (fund_all_shows envNoLogin cfgOne true).1
    ∧ (fund_all_shows envOnlyGood cfgTwo false).1.map Prod.fst =
        cfgTwo.media.map MediaItem.name :=
  ⟨C8_balance_abort_auth_continue.1 envNoBalance cfgOne false (by decide),
   C8_balance_abort_auth_continue.2.1 envNoLogin cfgOne argsDry (by decide),
   C8_balance_abort_auth_continue.2.2 envOnlyGood cfgTwo false (by decide)⟩

/-- C9 counterexample: for the empty show name the slug is falsy, so
even on the healthy page (show page available, funding buttons present)
fund_show raises for the empty batch instead of returning False. -/
theorem C9_counterexample_empty_name :
    envBase.showAvailable (show_slug "") = true
    ∧ fund_show envBase false "" [] =
        ([], Except.error (Err.valueError "Could not find show ID")) := by
  refine ⟨by decide, by decide⟩

/-- C9 amended: for an available show with a nonempty name and a batch
of valid amounts, fund_show returns the boolean success_count > 0; for
the empty batch, and when every amount waits out its funding-button
timeout, it returns False without an error.  (For the empty show name
the falsy-id check raises instead.) -/
theorem C9_returns_any_success (env : Env) (dryrun : Bool)
    (show_name : String) (amounts : List Nat)
    (hns : show_name ≠ "")
    (hav : env.showAvailable (show_slug show_name) = true)
    (hval : ∀ a ∈ amounts, a ∈ valid_amounts) :
    (∀ c, (fund_show_core env dryrun show_name amounts).2 = Except.ok c →
       (fund_show env dryrun show_name amounts).2 = Except.ok (decide (0 < c)))
    ∧ (amounts = [] →
       fund_show env dryrun show_name amounts = ([], Except.ok false))
    ∧ ((∀ a ∈ amounts, env.buttonFor (show_slug show_name) a = false) →
       fund_show env dryrun show_name amounts = ([], Except.ok false)) := by
  have hsid : get_show_id env show_name = Except.ok (show_slug show_name) := by
    simp [get_show_id, hav]
  have hse : ¬ (show_slug show_name = "") :=
    fun h => hns ((show_slug_empty_iff show_name).mp h)
  refine ⟨?_, ?_, ?_⟩
  · intro c hc
    simp [fund_show, hc, Except.map]
  · intro he
    subst he
    simp [fund_show, fund_show_core, hsid, hse, fundLoop, Except.map]
  · intro hbtn
    have hloop := fundLoop_all_timeout env dryrun (show_slug show_name) amounts 0 hbtn
    have hcore : fund_show_core env dryrun show_name amounts = ([], Except.ok 0) := by
      simp [fund_show_core, hsid, hse, hloop]
      exact hval
    simp [fund_show, hcore, Except.map]

/-- C9 amended witness: on the page with no funding buttons, the valid
batch [100, 400] for an available show yields False without an error. -/
theorem C9_returns_any_success_witness :
    fund_show envNoButton false "Test Show" [100, 400] = ([], Except.ok false) :=
  (C9_returns_any_success envNoButton false "Test Show" [100, 400]
    (by decide) (by decide) (by decide)).2.2 (by decide)

/-- C10: validate_funding_amounts never returns False: on every input
it returns True or raises; consequently fund_all_shows never takes its
early return-False branch, whose result would be Except.ok (some false). -/
theorem C10_validate_never_returns_false :
    ∀ (env : Env) (cfg : Config) (dryrun : Bool),
      (validate_funding_amounts env cfg = Except.ok true
       ∨ ∃ e, validate_funding_amounts env cfg = Except.error e)
      ∧ ((fund_all_shows env cfg dryrun).2 = Except.ok none
         ∨ ∃ e, (fund_all_shows env cfg dryrun).2 = Except.error e) := by
  intro env cfg dryrun
  cases hb : get_loot_balance env with
  | error e =>
    have hv : validate_funding_amounts env cfg = Except.error e := by
      simp [validate_funding_amounts, hb]
    exact ⟨Or.inr ⟨e, hv⟩, Or.inr ⟨e, by simp [fund_all_shows, hv]⟩⟩
  | ok b =>
    by_cases hlt : b < total_needed cfg
    · have hv : validate_funding_amounts env cfg =
          Except.error (Err.valueError "Insufficient LOOT balance") := by
        simp [validate_funding_amounts, hb, hlt]
      exact ⟨Or.inr ⟨Err.valueError "Insufficient LOOT balance", hv⟩,
             Or.inr ⟨Err.valueError "Insufficient LOOT balance",
                     by simp [fund_all_shows, hv]⟩⟩
    · have hv : validate_funding_amounts env cfg = Except.ok true := by
        simp [validate_funding_amounts, hb, hlt]
      exact ⟨Or.inl hv, Or.inl (by simp [fund_all_shows, hv])⟩

end LoorFunding
